import Mathlib

/-!
Verification of the generated algorithm wrapper `sherlockPredict`
(`src/main/python/systemds/operator/algorithm/builtin/sherlockPredict.py`)
against the repository specification of the lazy computation-graph layer.

The wrapper itself is transcribed from the source file.  The classes it
depends on (`Matrix`, `OperationNode`, the SystemDS context) are not part of
the visible source tree, so they are modelled from the specification's data
model (section 3 of the spec): a ValueHandle carries a reference to its
owning Context, an optional already-materialized value and an optional
pending OperationNode; an OperationNode carries an operator name, a
named-input mapping, a positional-input sequence and an output-type tag.
Reference identity of Python objects is modelled by threading an explicit
allocation counter: every constructed object receives a fresh numeric id.
-/

namespace SDS

/-- Modelled from the spec: `Context` is a process-wide handle to one active
engine session; handles reference it.  Only its identity matters here. -/
structure Context where
  ctxId : Nat
deriving DecidableEq, Repr

/-- Modelled from the spec: the output-type tag of a value handle or an
operation node, the variant set of `ValueHandle`
(`{Matrix, Frame, Scalar, List, MultiReturn}`). -/
inductive VType : Type where
  | matrix
  | frame
  | scalar
  | list
  | multiReturn
deriving DecidableEq, Repr

/-- Modelled from the spec: a concrete, already-materialized client-side
value (matrix buffer with shape, or a scalar).  None of the claims about the
stub ever materializes a value, so only the shape of the type matters. -/
inductive ConcreteValue : Type where
  | matVal (rows cols : Nat) (data : List Int)
  | scalarVal (v : Int)
deriving DecidableEq, Repr

mutual
/-- Modelled from the spec: an `OperationNode` represents a single deferred
operation: an operator name, a mapping of named input handles (insertion
order preserved, as in a Python dict), an ordered sequence of positional
input handles, and an output-type tag.  `nodeId` models Python object
identity (no two allocations share it). -/
inductive OperationNode : Type where
  | mk (nodeId : Nat)
       (opName : String)
       (namedInputs : List (String × ValueHandle))
       (posInputs : List ValueHandle)
       (outputType : VType)

/-- Modelled from the spec: a `ValueHandle` is a typed client-side reference
carrying its owning `Context`, an optional already-materialized value and an
optional owning `OperationNode` if still pending.  `refId` models Python
object identity. -/
inductive ValueHandle : Type where
  | mk (refId : Nat)
       (vtype : VType)
       (sds_context : Context)
       (materialized : Option ConcreteValue)
       (pending : Option OperationNode)
end

/-- The allocation id (object identity) of an operation node. -/
def OperationNode.nodeId : OperationNode → Nat
  | .mk i _ _ _ _ => i

/-- The operator name carried by an operation node. -/
def OperationNode.opName : OperationNode → String
  | .mk _ n _ _ _ => n

/-- The named-input mapping of an operation node, in insertion order. -/
def OperationNode.namedInputs : OperationNode → List (String × ValueHandle)
  | .mk _ _ ni _ _ => ni

/-- The positional-input sequence of an operation node. -/
def OperationNode.posInputs : OperationNode → List ValueHandle
  | .mk _ _ _ pi _ => pi

/-- The output-type tag of an operation node. -/
def OperationNode.outputType : OperationNode → VType
  | .mk _ _ _ _ t => t

/-- The allocation id (object identity) of a value handle. -/
def ValueHandle.refId : ValueHandle → Nat
  | .mk i _ _ _ _ => i

/-- The variant tag of a value handle. -/
def ValueHandle.vtype : ValueHandle → VType
  | .mk _ t _ _ _ => t

/-- The owning context of a value handle (`sds_context` attribute). -/
def ValueHandle.sds_context : ValueHandle → Context
  | .mk _ _ c _ _ => c

/-- The optional materialized value of a handle. -/
def ValueHandle.materialized : ValueHandle → Option ConcreteValue
  | .mk _ _ _ m _ => m

/-- The optional pending operation node of a handle. -/
def ValueHandle.pending : ValueHandle → Option OperationNode
  | .mk _ _ _ _ p => p

/-- The spec's handle invariant: exactly one of {materialized value, pending
node} is set at any time. -/
def ValueHandle.exactlyOneSlot (h : ValueHandle) : Prop :=
  h.materialized.isSome ≠ h.pending.isSome

/-- Modelled from the spec: the `Matrix` wrapper constructor (class not in
the visible source).  Per the spec, the stub "constructs a lazily-evaluated
operation node" and "return[s] a typed ValueHandle": the constructor
allocates a fresh `OperationNode` holding the operator name and exactly the
given named inputs (no positional inputs), and a fresh pending Matrix-typed
handle owning that node, with no materialized value and no computation.
The allocation counter `fresh` supplies object identities; the new counter
is returned alongside the handle. -/
def Matrix (fresh : Nat) (sds_context : Context) (operation : String)
    (named_input_nodes : List (String × ValueHandle)) : ValueHandle × Nat :=
  let node : OperationNode :=
    OperationNode.mk fresh operation named_input_nodes [] VType.matrix
  (ValueHandle.mk (fresh + 1) VType.matrix sds_context none (some node),
   fresh + 2)

/-- Python-level type annotation of a wrapper parameter, as declared in the
generated stub's signature. -/
inductive PyAnnotation : Type where
  | Matrix
  | Frame
  | Scalar
  | ListT
  | MultiReturn
  | Dict
  | Any
deriving DecidableEq, Repr

/-- The declared signature of `sherlockPredict`, transcribed from lines
32–62 of the source: each of the 31 parameters with its type annotation. -/
def sherlockPredictSignature : List (String × PyAnnotation) :=
  [("X", .Matrix), ("cW1", .Matrix), ("cb1", .Matrix), ("cW2", .Matrix),
   ("cb2", .Matrix), ("cW3", .Matrix), ("cb3", .Matrix), ("wW1", .Matrix),
   ("wb1", .Matrix), ("wW2", .Matrix), ("wb2", .Matrix), ("wW3", .Matrix),
   ("wb3", .Matrix), ("pW1", .Matrix), ("pb1", .Matrix), ("pW2", .Matrix),
   ("pb2", .Matrix), ("pW3", .Matrix), ("pb3", .Matrix), ("sW1", .Matrix),
   ("sb1", .Matrix), ("sW2", .Matrix), ("sb2", .Matrix), ("sW3", .Matrix),
   ("sb3", .Matrix), ("fW1", .Matrix), ("fb1", .Matrix), ("fW2", .Matrix),
   ("fb2", .Matrix), ("fW3", .Matrix), ("fb3", .Matrix)]

/-- The 31 parameter names of `sherlockPredict`, in declaration order. -/
def sherlockPredictParamNames : List String :=
  sherlockPredictSignature.map Prod.fst

/-- Transcribed from the source (lines 62–67 of the stub): build the
`params_dict` mapping each parameter name to the argument of the same name,
in the source's insertion order, and construct a `Matrix` handle on
`X.sds_context` with operation name `sherlockPredict` and `params_dict` as
named inputs.  The allocation counter `fresh` models the Python heap
state at call time. -/
def sherlockPredict (fresh : Nat)
    (X cW1 cb1 cW2 cb2 cW3 cb3
     wW1 wb1 wW2 wb2 wW3 wb3
     pW1 pb1 pW2 pb2 pW3 pb3
     sW1 sb1 sW2 sb2 sW3 sb3
     fW1 fb1 fW2 fb2 fW3 fb3 : ValueHandle) : ValueHandle × Nat :=
  let params_dict : List (String × ValueHandle) :=
    [("X", X), ("cW1", cW1), ("cb1", cb1), ("cW2", cW2), ("cb2", cb2),
     ("cW3", cW3), ("cb3", cb3), ("wW1", wW1), ("wb1", wb1), ("wW2", wW2),
     ("wb2", wb2), ("wW3", wW3), ("wb3", wb3), ("pW1", pW1), ("pb1", pb1),
     ("pW2", pW2), ("pb2", pb2), ("pW3", pW3), ("pb3", pb3), ("sW1", sW1),
     ("sb1", sb1), ("sW2", sW2), ("sb2", sb2), ("sW3", sW3), ("sb3", sb3),
     ("fW1", fW1), ("fb1", fb1), ("fW2", fW2), ("fb2", fb2), ("fW3", fW3),
     ("fb3", fb3)]
  Matrix fresh X.sds_context "sherlockPredict" params_dict

/-- Helper: the 31 parameter names of the stub are pairwise distinct. -/
theorem sherlockPredictParamNames_nodup : sherlockPredictParamNames.Nodup := by
  decide

/-- C1: for every call to `sherlockPredict` with its 31 arguments, the
named-input mapping of the constructed deferred operation node has exactly
the 31 parameter names as keys (unique, in declaration order), each key
bound to the argument of the same name. -/
theorem sherlockPredict_params_dict (fresh : Nat)
    (X cW1 cb1 cW2 cb2 cW3 cb3 wW1 wb1 wW2 wb2 wW3 wb3
     pW1 pb1 pW2 pb2 pW3 pb3 sW1 sb1 sW2 sb2 sW3 sb3
     fW1 fb1 fW2 fb2 fW3 fb3 : ValueHandle) :
    ∃ node : OperationNode,
      (sherlockPredict fresh X cW1 cb1 cW2 cb2 cW3 cb3 wW1 wb1 wW2 wb2 wW3
          wb3 pW1 pb1 pW2 pb2 pW3 pb3 sW1 sb1 sW2 sb2 sW3 sb3 fW1 fb1 fW2
          fb2 fW3 fb3).1.pending = some node ∧
      node.namedInputs.map Prod.fst = sherlockPredictParamNames ∧
      (node.namedInputs.map Prod.fst).Nodup ∧
      node.namedInputs =
        [("X", X), ("cW1", cW1), ("cb1", cb1), ("cW2", cW2), ("cb2", cb2),
         ("cW3", cW3), ("cb3", cb3), ("wW1", wW1), ("wb1", wb1),
         ("wW2", wW2), ("wb2", wb2), ("wW3", wW3), ("wb3", wb3),
         ("pW1", pW1), ("pb1", pb1), ("pW2", pW2), ("pb2", pb2),
         ("pW3", pW3), ("pb3", pb3), ("sW1", sW1), ("sb1", sb1),
         ("sW2", sW2), ("sb2", sb2), ("sW3", sW3), ("sb3", sb3),
         ("fW1", fW1), ("fb1", fb1), ("fW2", fW2), ("fb2", fb2),
         ("fW3", fW3), ("fb3", fb3)] := by
  exact ⟨_, rfl, rfl, sherlockPredictParamNames_nodup, rfl⟩

/-- C2: every call to `sherlockPredict` returns a single typed value handle
of Matrix type — not a MultiReturn and not a raw mapping. -/
theorem sherlockPredict_returns_matrix_handle (fresh : Nat)
    (X cW1 cb1 cW2 cb2 cW3 cb3 wW1 wb1 wW2 wb2 wW3 wb3
     pW1 pb1 pW2 pb2 pW3 pb3 sW1 sb1 sW2 sb2 sW3 sb3
     fW1 fb1 fW2 fb2 fW3 fb3 : ValueHandle) :
    (sherlockPredict fresh X cW1 cb1 cW2 cb2 cW3 cb3 wW1 wb1 wW2 wb2 wW3
        wb3 pW1 pb1 pW2 pb2 pW3 pb3 sW1 sb1 sW2 sb2 sW3 sb3 fW1 fb1 fW2
        fb2 fW3 fb3).1.vtype = VType.matrix ∧
    (sherlockPredict fresh X cW1 cb1 cW2 cb2 cW3 cb3 wW1 wb1 wW2 wb2 wW3
        wb3 pW1 pb1 pW2 pb2 pW3 pb3 sW1 sb1 sW2 sb2 sW3 sb3 fW1 fb1 fW2
        fb2 fW3 fb3).1.vtype ≠ VType.multiReturn := by
  exact ⟨rfl, fun h => VType.noConfusion h⟩

/-- C3: calling `sherlockPredict` performs no computation: the returned
handle carries no materialized value, owns a pending operation node, and
satisfies the exactly-one-of-{materialized, pending} invariant. -/
theorem sherlockPredict_lazy_pending (fresh : Nat)
    (X cW1 cb1 cW2 cb2 cW3 cb3 wW1 wb1 wW2 wb2 wW3 wb3
     pW1 pb1 pW2 pb2 pW3 pb3 sW1 sb1 sW2 sb2 sW3 sb3
     fW1 fb1 fW2 fb2 fW3 fb3 : ValueHandle) :
    (sherlockPredict fresh X cW1 cb1 cW2 cb2 cW3 cb3 wW1 wb1 wW2 wb2 wW3
        wb3 pW1 pb1 pW2 pb2 pW3 pb3 sW1 sb1 sW2 sb2 sW3 sb3 fW1 fb1 fW2
        fb2 fW3 fb3).1.materialized = none ∧
    (∃ node : OperationNode,
      (sherlockPredict fresh X cW1 cb1 cW2 cb2 cW3 cb3 wW1 wb1 wW2 wb2 wW3
          wb3 pW1 pb1 pW2 pb2 pW3 pb3 sW1 sb1 sW2 sb2 sW3 sb3 fW1 fb1 fW2
          fb2 fW3 fb3).1.pending = some node) ∧
    (sherlockPredict fresh X cW1 cb1 cW2 cb2 cW3 cb3 wW1 wb1 wW2 wb2 wW3
        wb3 pW1 pb1 pW2 pb2 pW3 pb3 sW1 sb1 sW2 sb2 sW3 sb3 fW1 fb1 fW2
        fb2 fW3 fb3).1.exactlyOneSlot := by
  refine ⟨rfl, ⟨_, rfl⟩, ?_⟩
  simp [sherlockPredict, Matrix, ValueHandle.exactlyOneSlot,
    ValueHandle.materialized, ValueHandle.pending]

/-- C4: the constructed operation node carries the operator name
`sherlockPredict`, and the stub computes no value of its own (the handle is
built with no materialized result, only the deferred node). -/
theorem sherlockPredict_op_name (fresh : Nat)
    (X cW1 cb1 cW2 cb2 cW3 cb3 wW1 wb1 wW2 wb2 wW3 wb3
     pW1 pb1 pW2 pb2 pW3 pb3 sW1 sb1 sW2 sb2 sW3 sb3
     fW1 fb1 fW2 fb2 fW3 fb3 : ValueHandle) :
    ∃ node : OperationNode,
      (sherlockPredict fresh X cW1 cb1 cW2 cb2 cW3 cb3 wW1 wb1 wW2 wb2 wW3
          wb3 pW1 pb1 pW2 pb2 pW3 pb3 sW1 sb1 sW2 sb2 sW3 sb3 fW1 fb1 fW2
          fb2 fW3 fb3).1.pending = some node ∧
      node.opName = "sherlockPredict" ∧
      (sherlockPredict fresh X cW1 cb1 cW2 cb2 cW3 cb3 wW1 wb1 wW2 wb2 wW3
          wb3 pW1 pb1 pW2 pb2 pW3 pb3 sW1 sb1 sW2 sb2 sW3 sb3 fW1 fb1 fW2
          fb2 fW3 fb3).1.materialized = none := by
  exact ⟨_, rfl, rfl, rfl⟩

/-- C5: the node built by `sherlockPredict` uses named inputs exclusively:
its named-input mapping is non-empty and its positional-input sequence is
empty. -/
theorem sherlockPredict_named_only (fresh : Nat)
    (X cW1 cb1 cW2 cb2 cW3 cb3 wW1 wb1 wW2 wb2 wW3 wb3
     pW1 pb1 pW2 pb2 pW3 pb3 sW1 sb1 sW2 sb2 sW3 sb3
     fW1 fb1 fW2 fb2 fW3 fb3 : ValueHandle) :
    ∃ node : OperationNode,
      (sherlockPredict fresh X cW1 cb1 cW2 cb2 cW3 cb3 wW1 wb1 wW2 wb2 wW3
          wb3 pW1 pb1 pW2 pb2 pW3 pb3 sW1 sb1 sW2 sb2 sW3 sb3 fW1 fb1 fW2
          fb2 fW3 fb3).1.pending = some node ∧
      node.namedInputs ≠ [] ∧
      node.posInputs = [] := by
  refine ⟨_, rfl, ?_, rfl⟩
  simp [OperationNode.namedInputs]

/-- C6: two successive calls to `sherlockPredict` with identical arguments
allocate distinct handles owning distinct operation nodes: handle and node
identities (and hence reference-based equality) differ, so no
common-subexpression merging happens at construction. -/
theorem sherlockPredict_no_aliasing (fresh : Nat)
    (X cW1 cb1 cW2 cb2 cW3 cb3 wW1 wb1 wW2 wb2 wW3 wb3
     pW1 pb1 pW2 pb2 pW3 pb3 sW1 sb1 sW2 sb2 sW3 sb3
     fW1 fb1 fW2 fb2 fW3 fb3 : ValueHandle) :
    let r1 := sherlockPredict fresh X cW1 cb1 cW2 cb2 cW3 cb3 wW1 wb1 wW2
        wb2 wW3 wb3 pW1 pb1 pW2 pb2 pW3 pb3 sW1 sb1 sW2 sb2 sW3 sb3 fW1
        fb1 fW2 fb2 fW3 fb3
    let r2 := sherlockPredict r1.2 X cW1 cb1 cW2 cb2 cW3 cb3 wW1 wb1 wW2
        wb2 wW3 wb3 pW1 pb1 pW2 pb2 pW3 pb3 sW1 sb1 sW2 sb2 sW3 sb3 fW1
        fb1 fW2 fb2 fW3 fb3
    r1.1.refId ≠ r2.1.refId ∧
    r1.1 ≠ r2.1 ∧
    ∃ n1 n2 : OperationNode,
      r1.1.pending = some n1 ∧ r2.1.pending = some n2 ∧
      n1.nodeId ≠ n2.nodeId ∧ n1 ≠ n2 := by
  intro r1 r2
  have hr : r1.1.refId ≠ r2.1.refId := by
    show fresh + 1 ≠ fresh + 2 + 1
    omega
  have hn : (fresh : Nat) ≠ fresh + 2 := by omega
  refine ⟨hr, fun h => hr (congrArg ValueHandle.refId h), _, _, rfl, rfl,
    hn, fun h => hn (congrArg OperationNode.nodeId h)⟩

/-- C7: every one of the 31 declared parameters of `sherlockPredict` is
annotated with the Matrix handle type; none is an untyped Dict or Any. -/
theorem sherlockPredict_signature_strictly_typed :
    sherlockPredictSignature.length = 31 ∧
    (∀ p ∈ sherlockPredictSignature, p.2 = PyAnnotation.Matrix) ∧
    (∀ p ∈ sherlockPredictSignature,
        p.2 ≠ PyAnnotation.Dict ∧ p.2 ≠ PyAnnotation.Any) := by
  decide

/-- C8: the context of the returned handle is taken solely from
`X.sds_context`; the theorem quantifies over all 31 handles with no
hypothesis relating their contexts, so construction succeeds (a pending
node is produced) even when argument contexts differ. -/
theorem sherlockPredict_context_from_X (fresh : Nat)
    (X cW1 cb1 cW2 cb2 cW3 cb3 wW1 wb1 wW2 wb2 wW3 wb3
     pW1 pb1 pW2 pb2 pW3 pb3 sW1 sb1 sW2 sb2 sW3 sb3
     fW1 fb1 fW2 fb2 fW3 fb3 : ValueHandle) :
    (sherlockPredict fresh X cW1 cb1 cW2 cb2 cW3 cb3 wW1 wb1 wW2 wb2 wW3
        wb3 pW1 pb1 pW2 pb2 pW3 pb3 sW1 sb1 sW2 sb2 sW3 sb3 fW1 fb1 fW2
        fb2 fW3 fb3).1.sds_context = X.sds_context ∧
    ∃ node : OperationNode,
      (sherlockPredict fresh X cW1 cb1 cW2 cb2 cW3 cb3 wW1 wb1 wW2 wb2 wW3
          wb3 pW1 pb1 pW2 pb2 pW3 pb3 sW1 sb1 sW2 sb2 sW3 sb3 fW1 fb1 fW2
          fb2 fW3 fb3).1.pending = some node := by
  exact ⟨rfl, _, rfl⟩

/-- C9: `sherlockPredict` stores the argument handles themselves in the
named-input mapping, unchanged and unwrapped: the sequence of mapped values
is exactly the sequence of arguments as passed. -/
theorem sherlockPredict_stores_arguments_unchanged (fresh : Nat)
    (X cW1 cb1 cW2 cb2 cW3 cb3 wW1 wb1 wW2 wb2 wW3 wb3
     pW1 pb1 pW2 pb2 pW3 pb3 sW1 sb1 sW2 sb2 sW3 sb3
     fW1 fb1 fW2 fb2 fW3 fb3 : ValueHandle) :
    ∃ node : OperationNode,
      (sherlockPredict fresh X cW1 cb1 cW2 cb2 cW3 cb3 wW1 wb1 wW2 wb2 wW3
          wb3 pW1 pb1 pW2 pb2 pW3 pb3 sW1 sb1 sW2 sb2 sW3 sb3 fW1 fb1 fW2
          fb2 fW3 fb3).1.pending = some node ∧
      node.namedInputs.map Prod.snd =
        [X, cW1, cb1, cW2, cb2, cW3, cb3, wW1, wb1, wW2, wb2, wW3, wb3,
         pW1, pb1, pW2, pb2, pW3, pb3, sW1, sb1, sW2, sb2, sW3, sb3,
         fW1, fb1, fW2, fb2, fW3, fb3] := by
  exact ⟨_, rfl, rfl⟩

/-- C10: `sherlockPredict` is deterministic and reads no state other than
its arguments: calls from any two allocation states build nodes with the
same operator name, pointwise-identical named-input mappings (same keys in
the same order bound to the same handles), identical positional inputs and
output tags, and handles with the same type, context and (absent)
materialized value. -/
theorem sherlockPredict_deterministic (fresh1 fresh2 : Nat)
    (X cW1 cb1 cW2 cb2 cW3 cb3 wW1 wb1 wW2 wb2 wW3 wb3
     pW1 pb1 pW2 pb2 pW3 pb3 sW1 sb1 sW2 sb2 sW3 sb3
     fW1 fb1 fW2 fb2 fW3 fb3 : ValueHandle) :
    let r1 := sherlockPredict fresh1 X cW1 cb1 cW2 cb2 cW3 cb3 wW1 wb1 wW2
        wb2 wW3 wb3 pW1 pb1 pW2 pb2 pW3 pb3 sW1 sb1 sW2 sb2 sW3 sb3 fW1
        fb1 fW2 fb2 fW3 fb3
    let r2 := sherlockPredict fresh2 X cW1 cb1 cW2 cb2 cW3 cb3 wW1 wb1 wW2
        wb2 wW3 wb3 pW1 pb1 pW2 pb2 pW3 pb3 sW1 sb1 sW2 sb2 sW3 sb3 fW1
        fb1 fW2 fb2 fW3 fb3
    ∃ n1 n2 : OperationNode,
      r1.1.pending = some n1 ∧ r2.1.pending = some n2 ∧
      n1.opName = n2.opName ∧
      n1.namedInputs = n2.namedInputs ∧
      n1.posInputs = n2.posInputs ∧
      n1.outputType = n2.outputType ∧
      r1.1.vtype = r2.1.vtype ∧
      r1.1.sds_context = r2.1.sds_context ∧
      r1.1.materialized = r2.1.materialized := by
  exact ⟨_, _, rfl, rfl, rfl, rfl, rfl, rfl, rfl, rfl, rfl⟩

end SDS
